import Mathlib

/-!
Verification development for `ria_remote/export_archive.py`
(`ExportArchive.__call__`): the RIA archive export of a local annex
object store.

The development has three parts:

1. An executable embedding of the key-to-bucket mapper used at lines
   156-159 of the source: `md5(key.encode()).hexdigest()` split into the
   first three and the next three hex characters.  Python's `hashlib.md5`
   is embedded as the full MD5 algorithm (RFC 1321) over byte lists, with
   machine words represented as `Nat` reduced modulo `2^32`; the
   embedding is validated below against the RFC 1321 test vectors.
2. An explicit-state embedding of the run itself (`runExport`): the
   environment captures every filesystem observation the code makes
   (`archive.is_dir()`, `annex_objs.is_dir()`, `exportdir.exists()`, the
   globbed key names, which `os.link` calls raise, whether
   `subprocess.run` raises, and the subprocess exit status), and the
   effects record captures every filesystem write and the subprocess
   invocation.
3. Theorems settling the specification claims about these definitions.
-/

set_option maxRecDepth 100000

namespace RiaExport

/-! ## MD5 over byte lists (RFC 1321), words as `Nat` mod `2^32` -/

/-- Left-rotate a 32-bit word (a `Nat` below `2^32`) by `n` bits. -/
def rotl32 (x n : Nat) : Nat :=
  ((x <<< n) ||| (x >>> (32 - n))) % 4294967296

/-- Bitwise complement on 32-bit words. -/
def not32 (x : Nat) : Nat := x ^^^ 4294967295

/-- Round function F (rounds 0-15). -/
def mF (b c d : Nat) : Nat := (b &&& c) ||| (not32 b &&& d)

/-- Round function G (rounds 16-31). -/
def mG (b c d : Nat) : Nat := (d &&& b) ||| (not32 d &&& c)

/-- Round function H (rounds 32-47). -/
def mH (b c d : Nat) : Nat := b ^^^ c ^^^ d

/-- Round function I (rounds 48-63). -/
def mI (b c d : Nat) : Nat := c ^^^ (b ||| not32 d)

/-- The 64 MD5 additive constants `floor(2^32 * abs(sin(i+1)))`. -/
def mdK : List Nat :=
  [0xd76aa478, 0xe8c7b756, 0x242070db, 0xc1bdceee,
   0xf57c0faf, 0x4787c62a, 0xa8304613, 0xfd469501,
   0x698098d8, 0x8b44f7af, 0xffff5bb1, 0x895cd7be,
   0x6b901122, 0xfd987193, 0xa679438e, 0x49b40821,
   0xf61e2562, 0xc040b340, 0x265e5a51, 0xe9b6c7aa,
   0xd62f105d, 0x02441453, 0xd8a1e681, 0xe7d3fbc8,
   0x21e1cde6, 0xc33707d6, 0xf4d50d87, 0x455a14ed,
   0xa9e3e905, 0xfcefa3f8, 0x676f02d9, 0x8d2a4c8a,
   0xfffa3942, 0x8771f681, 0x6d9d6122, 0xfde5380c,
   0xa4beea44, 0x4bdecfa9, 0xf6bb4b60, 0xbebfbc70,
   0x289b7ec6, 0xeaa127fa, 0xd4ef3085, 0x04881d05,
   0xd9d4d039, 0xe6db99e5, 0x1fa27cf8, 0xc4ac5665,
   0xf4292244, 0x432aff97, 0xab9423a7, 0xfc93a039,
   0x655b59c3, 0x8f0ccc92, 0xffeff47d, 0x85845dd1,
   0x6fa87e4f, 0xfe2ce6e0, 0xa3014314, 0x4e0811a1,
   0xf7537e82, 0xbd3af235, 0x2ad7d2bb, 0xeb86d391]

/-- The 64 MD5 per-round shift amounts. -/
def mdS : List Nat :=
  [7, 12, 17, 22, 7, 12, 17, 22, 7, 12, 17, 22, 7, 12, 17, 22,
   5, 9, 14, 20, 5, 9, 14, 20, 5, 9, 14, 20, 5, 9, 14, 20,
   4, 11, 16, 23, 4, 11, 16, 23, 4, 11, 16, 23, 4, 11, 16, 23,
   6, 10, 15, 21, 6, 10, 15, 21, 6, 10, 15, 21, 6, 10, 15, 21]

/-- Working state: the four 32-bit registers A, B, C, D. -/
abbrev Md5State := Nat × Nat × Nat × Nat

/-- The MD5 initialisation vector. -/
def md5Init : Md5State := (0x67452301, 0xefcdab89, 0x98badcfe, 0x10325476)

/-- Word `j` of a 64-byte block, assembled little-endian. -/
def blockWord (block : List Nat) (j : Nat) : Nat :=
  block.getD (4 * j) 0 + 256 * block.getD (4 * j + 1) 0 +
    65536 * block.getD (4 * j + 2) 0 + 16777216 * block.getD (4 * j + 3) 0

/-- One of the 64 MD5 operations, applied to the running state. -/
def md5Round (block : List Nat) (st : Md5State) (i : Nat) : Md5State :=
  let a := st.1
  let b := st.2.1
  let c := st.2.2.1
  let d := st.2.2.2
  let f :=
    if i < 16 then mF b c d
    else if i < 32 then mG b c d
    else if i < 48 then mH b c d
    else mI b c d
  let g :=
    if i < 16 then i
    else if i < 32 then (5 * i + 1) % 16
    else if i < 48 then (3 * i + 5) % 16
    else (7 * i) % 16
  let tmp := (f + a + mdK.getD i 0 + blockWord block g) % 4294967296
  (d, (b + rotl32 tmp (mdS.getD i 0)) % 4294967296, b, c)

/-- Compress one 64-byte block into the state. -/
def md5Block (st : Md5State) (block : List Nat) : Md5State :=
  let r := (List.range 64).foldl (md5Round block) st
  ((st.1 + r.1) % 4294967296, (st.2.1 + r.2.1) % 4294967296,
   (st.2.2.1 + r.2.2.1) % 4294967296, (st.2.2.2 + r.2.2.2) % 4294967296)

/-- Little-endian serialisation of a 64-bit length, eight bytes. -/
def le64 (n : Nat) : List Nat :=
  [n % 256, n / 256 % 256, n / 65536 % 256, n / 16777216 % 256,
   n / 4294967296 % 256, n / 1099511627776 % 256,
   n / 281474976710656 % 256, n / 72057594037927936 % 256]

/-- Little-endian serialisation of a 32-bit word, four bytes. -/
def le32 (n : Nat) : List Nat :=
  [n % 256, n / 256 % 256, n / 65536 % 256, n / 16777216 % 256]

/-- MD5 padding: a `0x80` byte, zeros to 56 mod 64, then the bit length
little-endian in eight bytes.  `(119 - len % 64) % 64` is the zero count
`(56 - (len + 1)) mod 64` written without `Nat` underflow. -/
def md5Pad (msg : List Nat) : List Nat :=
  msg ++ 128 :: List.replicate ((119 - msg.length % 64) % 64) 0 ++ le64 (8 * msg.length)

/-- Absorb the (already padded) byte stream block by block: bytes are
accumulated into `buf` and each full 64-byte block is compressed.
Structural recursion on the byte list keeps the definition kernel-reducible. -/
def md5Process (bytes : List Nat) (st : Md5State) (buf : List Nat) : Md5State :=
  match bytes with
  | [] => st
  | b :: rest =>
    let buf2 := buf ++ [b]
    if buf2.length = 64 then md5Process rest (md5Block st buf2) []
    else md5Process rest st buf2

/-- The 16-byte MD5 digest of a byte list. -/
def md5Bytes (msg : List Nat) : List Nat :=
  let st := md5Process (md5Pad msg) md5Init []
  le32 st.1 ++ le32 st.2.1 ++ le32 st.2.2.1 ++ le32 st.2.2.2

/-- The lowercase hexadecimal alphabet used by `hexdigest()`. -/
def hexDigits : List Char := "0123456789abcdef".toList

/-- Two lowercase hex characters for one byte. -/
def byteToHex (b : Nat) : List Char :=
  [hexDigits.getD (b / 16) '0', hexDigits.getD (b % 16) '0']

/-- Lowercase hex rendering of a byte list (`hexdigest()`). -/
def hexdigestChars : List Nat → List Char
  | [] => []
  | b :: rest => byteToHex b ++ hexdigestChars rest

/-- UTF-8 encoding of one character (Python `str.encode()` default). -/
def utf8Bytes (c : Char) : List Nat :=
  let n := c.toNat
  if n < 128 then [n]
  else if n < 2048 then [192 + n / 64, 128 + n % 64]
  else if n < 65536 then [224 + n / 4096, 128 + n / 64 % 64, 128 + n % 64]
  else [240 + n / 262144, 128 + n / 4096 % 64, 128 + n / 64 % 64, 128 + n % 64]

/-- `key.encode()`: the UTF-8 bytes of the key string. -/
def keyBytes (key : String) : List Nat := key.data.flatMap utf8Bytes

/-- `md5sum = md5(key.encode()).hexdigest()` (line 158), as a character list. -/
def md5sumOf (key : String) : List Char := hexdigestChars (md5Bytes (keyBytes key))

/-! ### RFC 1321 test vectors, validating the MD5 embedding -/

/-- RFC 1321 test vector: the digest of the empty string. -/
theorem md5_vector_empty :
    (md5sumOf "").asString = "d41d8cd98f00b204e9800998ecf8427e" := by decide

/-- RFC 1321 test vector: the digest of "a". -/
theorem md5_vector_a :
    (md5sumOf "a").asString = "0cc175b9c0f1b6a831c399e269772661" := by decide

/-- RFC 1321 test vector: the digest of "abc". -/
theorem md5_vector_abc :
    (md5sumOf "abc").asString = "900150983cd24fb0d6963f7d28e17f72" := by decide

/-- RFC 1321 test vector: the digest of "message digest".  This input is
long enough to exercise a nontrivial amount of the padding logic. -/
theorem md5_vector_message_digest :
    (md5sumOf "message digest").asString = "f96b697d7cb7938d525a2f31aaf161d0" := by decide

/-! ## The bucket mapper (lines 156-159 and 166-168 of the source)

`md5sum = md5(key.encode()).hexdigest()`
`hashdir = op.join(md5sum[:3], md5sum[3:6])`
`keydir = exportdir / hashdir / key`, hardlink target `keydir / key`.
Paths are modelled as lists of components relative to the staging root. -/

/-- `md5sum[:3]`: the outer bucket segment. -/
def bucketOuter (key : String) : String := ((md5sumOf key).take 3).asString

/-- `md5sum[3:6]`: the inner bucket segment. -/
def bucketInner (key : String) : String := (((md5sumOf key).drop 3).take 3).asString

/-- `hashdir = op.join(md5sum[:3], md5sum[3:6])`, as path components. -/
def hashdirOf (key : String) : List String := [bucketOuter key, bucketInner key]

/-- `keydir = exportdir / hashdir / key`, relative to the staging root. -/
def keydirRel (key : String) : List String := hashdirOf key ++ [key]

/-- The staged hardlink location `keydir / key`, relative to the staging root. -/
def stagedRel (key : String) : List String := keydirRel key ++ [key]

/-! ### Structural facts about the digest rendering -/

theorem le32_mem_lt (n : Nat) : ∀ b ∈ le32 n, b < 256 := by
  intro b hb
  simp only [le32, List.mem_cons, List.not_mem_nil, or_false] at hb
  rcases hb with rfl | rfl | rfl | rfl <;> exact Nat.mod_lt _ (by decide)

theorem md5Bytes_length (msg : List Nat) : (md5Bytes msg).length = 16 := by
  simp [md5Bytes, le32]

theorem md5Bytes_mem_lt (msg : List Nat) : ∀ b ∈ md5Bytes msg, b < 256 := by
  intro b hb
  simp only [md5Bytes, List.mem_append] at hb
  rcases hb with ((h | h) | h) | h <;> exact le32_mem_lt _ b h

theorem hexdigestChars_length (bs : List Nat) :
    (hexdigestChars bs).length = 2 * bs.length := by
  induction bs with
  | nil => rfl
  | cons b rest ih =>
    have h2 : (byteToHex b).length = 2 := rfl
    simp only [hexdigestChars, List.length_append, ih, h2, List.length_cons]
    omega

theorem hexDigits_getD_mem : ∀ n, n < 16 → hexDigits.getD n '0' ∈ hexDigits := by decide

theorem hexdigestChars_mem (bs : List Nat) (hbs : ∀ b ∈ bs, b < 256) :
    ∀ c ∈ hexdigestChars bs, c ∈ hexDigits := by
  induction bs with
  | nil => simp [hexdigestChars]
  | cons b rest ih =>
    intro c hc
    have hb : b < 256 := hbs b (by simp)
    simp only [hexdigestChars, byteToHex, List.mem_append, List.mem_cons,
      List.not_mem_nil, or_false] at hc
    rcases hc with (rfl | rfl) | hc
    · exact hexDigits_getD_mem _ ((Nat.div_lt_iff_lt_mul (by decide)).mpr hb)
    · exact hexDigits_getD_mem _ (Nat.mod_lt _ (by decide))
    · exact ih (fun x hx => hbs x (by simp [hx])) c hc

/-- The rendered digest always has exactly 32 characters (128 bits in hex). -/
theorem md5sumOf_length (key : String) : (md5sumOf key).length = 32 := by
  simp [md5sumOf, hexdigestChars_length, md5Bytes_length]

/-- Every character of the rendered digest is a lowercase hex digit. -/
theorem md5sumOf_hex (key : String) : ∀ c ∈ md5sumOf key, c ∈ hexDigits :=
  hexdigestChars_mem _ (md5Bytes_mem_lt _)

/-! ## The run model

`ExportArchive.__call__` is a generator yielding status dictionaries.
Dataset resolution and the result-eval framework are external
collaborators (out of scope per the specification); the embedding starts
where the function starts touching the filesystem.  The environment
records every observation the code makes of the outside world, the
effects record every write it performs. -/

/-- The `status` field of a yielded result dictionary. -/
inductive Status
  | ok
  | notneeded
  | error
deriving DecidableEq, Repr

/-- A yielded result dictionary (the fields the claims are about). -/
structure StatusDict where
  status : Status
  message : Option String
  path : Option String
deriving DecidableEq, Repr

/-- How a run of the generator terminates: either it returns after
yielding a list of results, or an uncaught exception propagates (the
results yielded before the exception are listed alongside it). -/
inductive RunResult
  | returned (results : List StatusDict)
  | raised (exc : String) (partialResults : List StatusDict)
deriving DecidableEq, Repr

/-- The outside world as observed by one run.  `keys` lists the names of
the regular files found by `annex_objs.glob('**/*')` (in traversal
order); `linkRaises k = some e` means the `os.link` call for key `k`
raises exception `e`; `subprocessRaises = some d` means `subprocess.run`
itself raises with detail `d` (tool missing, bad working directory);
`subprocessExit` is the exit status of the archiver when it does run. -/
structure Env where
  archiveIsDir : Bool
  archiveParentExists : Bool
  annexObjsIsDir : Bool
  exportdirExists : Bool
  keys : List String
  linkRaises : String → Option String
  subprocessRaises : Option String
  subprocessExit : Nat
  opts : List String

/-- The filesystem writes and the subprocess invocation performed by a
run.  `mkdirs` and `links` are paths relative to the staging root, in
order; `archiverArgv = some argv` records the attempted `subprocess.run`
command line; `createdArchiveParent` is true when the
`archive.parent.mkdir(exist_ok=True, parents=True)` call actually
created missing directories. -/
structure Effects where
  parentMkdirCalled : Bool
  createdArchiveParent : Bool
  mkdirs : List (List String)
  links : List (String × List String)
  archiverArgv : Option (List String)
  rmtreeCalled : Bool
deriving DecidableEq, Repr

/-- Outcome of the staging loop (lines 156-168): directories created,
hardlinks created, and the exception that aborted it, if any.  The
`keydir.mkdir` for a key precedes its `os.link`, so a failing key still
contributes its directory. -/
structure LoopOut where
  mkdirs : List (List String)
  links : List (String × List String)
  exc : Option String
deriving DecidableEq, Repr

/-- The staging loop: for each key, make `keydir` and hardlink the
object to `keydir / key`; the first raising `os.link` aborts the loop. -/
def linkLoop (linkRaises : String → Option String) : List String → LoopOut
  | [] => ⟨[], [], none⟩
  | key :: rest =>
    match linkRaises key with
    | some e => ⟨[keydirRel key], [], some e⟩
    | none =>
      let r := linkLoop linkRaises rest
      ⟨keydirRel key :: r.mkdirs, (key, stagedRel key) :: r.links, r.exc⟩

/-- The archive path: `archive / 'archive.7z'` when the target is an
existing directory, else the target itself (lines 106-110). -/
def archiveOf (env : Env) (target : String) : String :=
  if env.archiveIsDir then target ++ "/archive.7z" else target

/-- The archiver command line `['7z', 'u', str(archive), '.'] + opts`,
with `opts = ['-mx0']` when the caller supplied none (lines 112-114 and
176-179). -/
def argvOf (env : Env) (target : String) : List String :=
  ["7z", "u", archiveOf env target, "."] ++
    (if env.opts = [] then ["-mx0"] else env.opts)

/-- One run of `ExportArchive.__call__`, lines 104-194 of the source:

* lines 106-110: the target is resolved; when it is not an existing
  directory, `archive.parent.mkdir(exist_ok=True, parents=True)` runs
  (before any precondition check);
* lines 121-128: if `annex_objs` is not a directory, yield `notneeded`
  and return;
* lines 130-140: if `exportdir` exists, yield `error` and return;
* lines 156-168: the staging loop; an `os.link` failure propagates out
  of the generator uncaught (the loop is not inside the try/finally);
* lines 175-194: `subprocess.run(['7z', 'u', archive, '.'] + opts)`
  without `check=True` — only an exception from the invocation itself is
  caught and turned into an `error` result; the exit status is never
  inspected, so a completed subprocess always yields `ok`; the `finally`
  block removes the staging tree on both of these paths. -/
def runExport (env : Env) (target : String) : RunResult × Effects :=
  let parentMkdir := !env.archiveIsDir
  let createdParent := !env.archiveIsDir && !env.archiveParentExists
  if !env.annexObjsIsDir then
    (.returned [⟨.notneeded, some "no annex keys present", none⟩],
     ⟨parentMkdir, createdParent, [], [], none, false⟩)
  else if env.exportdirExists then
    (.returned [⟨.error, some "export directory already exists, please remove first", none⟩],
     ⟨parentMkdir, createdParent, [], [], none, false⟩)
  else
    match (linkLoop env.linkRaises env.keys).exc with
    | some e =>
      (.raised e [],
       ⟨parentMkdir, createdParent, (linkLoop env.linkRaises env.keys).mkdirs,
        (linkLoop env.linkRaises env.keys).links, none, false⟩)
    | none =>
      match env.subprocessRaises with
      | some d =>
        (.returned [⟨.error, some ("7z failed: " ++ d), some (archiveOf env target)⟩],
         ⟨parentMkdir, createdParent, (linkLoop env.linkRaises env.keys).mkdirs,
          (linkLoop env.linkRaises env.keys).links, some (argvOf env target), true⟩)
      | none =>
        (.returned [⟨.ok, none, some (archiveOf env target)⟩],
         ⟨parentMkdir, createdParent, (linkLoop env.linkRaises env.keys).mkdirs,
          (linkLoop env.linkRaises env.keys).links, some (argvOf env target), true⟩)

/-- The statuses of the results delivered to the caller, in order. -/
def resultStatuses : RunResult → List Status
  | .returned rs => rs.map (fun r => r.status)
  | .raised _ rs => rs.map (fun r => r.status)

/-- Whether the staging tree exists once the run has ended: it existed
before, or some `keydir.mkdir(parents=True)` created it, and no `rmtree`
removed it. -/
def stagingExistsAtEnd (env : Env) (eff : Effects) : Bool :=
  (env.exportdirExists || !eff.mkdirs.isEmpty) && !eff.rmtreeCalled

/-! ### Facts about the staging loop -/

/-- Every hardlink recorded by the staging loop sits at the staged
location derived from its key. -/
theorem linkLoop_links_staged (f : String → Option String) (keys : List String) :
    ∀ k p, (k, p) ∈ (linkLoop f keys).links → p = stagedRel k := by
  induction keys with
  | nil => intro k p h; simp [linkLoop] at h
  | cons key rest ih =>
    intro k p h
    cases hf : f key with
    | some e => simp [linkLoop, hf] at h
    | none =>
      simp only [linkLoop, hf, List.mem_cons] at h
      rcases h with h | h
      · obtain ⟨h1, h2⟩ := Prod.mk.injEq .. ▸ h
        exact h1 ▸ h2
      · exact ih k p h

/-- The staging loop stops at the first failing key: the keys before it
are linked, the failing key gets its directory but no link, and the keys
after it are never touched. -/
theorem linkLoop_first_failure (f : String → Option String)
    (pre post : List String) (k : String) (e : String)
    (hpre : ∀ j ∈ pre, f j = none) (hk : f k = some e) :
    linkLoop f (pre ++ k :: post) =
      ⟨pre.map keydirRel ++ [keydirRel k],
       pre.map (fun j => (j, stagedRel j)), some e⟩ := by
  induction pre with
  | nil => simp [linkLoop, hk]
  | cons j rest ih =>
    have hj : f j = none := hpre j (by simp)
    have hrest : ∀ x ∈ rest, f x = none := fun x hx => hpre x (by simp [hx])
    simp [linkLoop, hj, ih hrest]

/-- A loop over keys none of which fail records a link for every key and
raises nothing. -/
theorem linkLoop_all_ok (f : String → Option String) (keys : List String)
    (h : ∀ j ∈ keys, f j = none) :
    linkLoop f keys =
      ⟨keys.map keydirRel, keys.map (fun j => (j, stagedRel j)), none⟩ := by
  induction keys with
  | nil => rfl
  | cons j rest ih =>
    have hj : f j = none := h j (by simp)
    have hrest : ∀ x ∈ rest, f x = none := fun x hx => h x (by simp [hx])
    simp [linkLoop, hj, ih hrest]

/-! ### Facts about the bucket segments -/

theorem bucketOuter_toList (key : String) :
    (bucketOuter key).toList = (md5sumOf key).take 3 := rfl

theorem bucketInner_toList (key : String) :
    (bucketInner key).toList = ((md5sumOf key).drop 3).take 3 := rfl

theorem bucketOuter_length (key : String) : (bucketOuter key).length = 3 := by
  show ((md5sumOf key).take 3).length = 3
  rw [List.length_take, md5sumOf_length]
  decide

theorem bucketInner_length (key : String) : (bucketInner key).length = 3 := by
  show (((md5sumOf key).drop 3).take 3).length = 3
  rw [List.length_take, List.length_drop, md5sumOf_length]
  decide

theorem bucketOuter_hex (key : String) :
    ∀ c ∈ (bucketOuter key).toList, c ∈ hexDigits := by
  intro c hc
  rw [bucketOuter_toList] at hc
  exact md5sumOf_hex key c (List.take_subset 3 _ hc)

theorem bucketInner_hex (key : String) :
    ∀ c ∈ (bucketInner key).toList, c ∈ hexDigits := by
  intro c hc
  rw [bucketInner_toList] at hc
  exact md5sumOf_hex key c (List.drop_subset 3 _ (List.take_subset 3 _ hc))

/-! ## Claim theorems -/

/-- C1: For every object key (a string), the bucket mapper is a pure,
deterministic function computing the path as follows: take the 128-bit
MD5 digest of the key's encoded bytes (the MD5 embedding is validated
against the RFC 1321 vectors above), render it as a lowercase
hexadecimal string (32 hex characters, all from the lowercase hex
alphabet), and use exactly the first 3 hex characters as the outer
directory segment and exactly the next 3 (positions 4-6) as the inner
segment; the same key always yields the same bucket path. -/
theorem c1_bucket_mapper_md5_split (key : String) :
    hashdirOf key =
      [((md5sumOf key).take 3).asString, (((md5sumOf key).drop 3).take 3).asString]
    ∧ (md5sumOf key).length = 32
    ∧ (∀ c ∈ md5sumOf key, c ∈ hexDigits)
    ∧ (∀ k2 : String, k2 = key → hashdirOf k2 = hashdirOf key) :=
  ⟨rfl, md5sumOf_length key, md5sumOf_hex key, fun _ h => h ▸ rfl⟩

/-- Witness for C1 at concrete keys: the first digest character of the
empty key is a hex digit, and the mapper is stable on a git-annex style
key. -/
theorem c1_bucket_mapper_md5_split_witness :
    'd' ∈ hexDigits ∧ hashdirOf "MD5E-s10--abc123" = hashdirOf "MD5E-s10--abc123" :=
  ⟨(c1_bucket_mapper_md5_split "").2.2.1 'd' (by decide),
   (c1_bucket_mapper_md5_split "MD5E-s10--abc123").2.2.2 "MD5E-s10--abc123" rfl⟩

/-- C10: For every key string (including the empty string and strings
containing path separators), the derived bucket path consists of exactly
two segments of exactly 3 lowercase hexadecimal characters each — never
empty, never containing a path separator or `..` — so the bucket
directory always lies strictly inside the staging root. -/
theorem c10_bucket_segments_safe (key : String) :
    (bucketOuter key).length = 3 ∧ (bucketInner key).length = 3
    ∧ (∀ c ∈ (bucketOuter key).toList, c ∈ hexDigits)
    ∧ (∀ c ∈ (bucketInner key).toList, c ∈ hexDigits)
    ∧ bucketOuter key ≠ "" ∧ bucketInner key ≠ ""
    ∧ '/' ∉ (bucketOuter key).toList ∧ '/' ∉ (bucketInner key).toList
    ∧ bucketOuter key ≠ ".." ∧ bucketInner key ≠ ".." := by
  refine ⟨bucketOuter_length key, bucketInner_length key,
    bucketOuter_hex key, bucketInner_hex key, ?_, ?_, ?_, ?_, ?_, ?_⟩
  · intro h
    have := bucketOuter_length key
    rw [h] at this
    exact absurd this (by decide)
  · intro h
    have := bucketInner_length key
    rw [h] at this
    exact absurd this (by decide)
  · intro h
    exact absurd (bucketOuter_hex key '/' h) (by decide)
  · intro h
    exact absurd (bucketInner_hex key '/' h) (by decide)
  · intro h
    have := bucketOuter_length key
    rw [h] at this
    exact absurd this (by decide)
  · intro h
    have := bucketInner_length key
    rw [h] at this
    exact absurd this (by decide)

/-- Witness for C10 at a concrete key containing path separators and
dots: its segments are 3 characters long, and the first character of the
outer segment of `"../../evil"` is a hex digit. -/
theorem c10_bucket_segments_safe_witness :
    (bucketOuter "../../evil").length = 3
    ∧ (bucketInner "../../evil").length = 3
    ∧ (bucketOuter "../../evil").toList.getD 0 'x' ∈ hexDigits :=
  ⟨(c10_bucket_segments_safe "../../evil").1,
   (c10_bucket_segments_safe "../../evil").2.1,
   (c10_bucket_segments_safe "../../evil").2.2.1 _ (by decide)⟩

/-- Any hardlink recorded by a run was recorded by the staging loop. -/
theorem runExport_links_sub (env : Env) (target : String) (k : String) (p : List String)
    (h : (k, p) ∈ (runExport env target).2.links) :
    (k, p) ∈ (linkLoop env.linkRaises env.keys).links := by
  unfold runExport at h
  cases h1 : env.annexObjsIsDir <;> simp only [h1] at h
  · simp at h
  · cases h2 : env.exportdirExists <;> simp only [h2] at h
    · simp only [Bool.not_true, Bool.false_eq_true, if_false, if_true] at h
      cases h3 : (linkLoop env.linkRaises env.keys).exc <;> rw [h3] at h
      · cases h4 : env.subprocessRaises <;> rw [h4] at h <;> exact h
      · exact h
    · simp at h

/-- C6: For every enumerated key, the staged location of its hardlink is
exactly the four-component relative path `<outer>/<inner>/<key>/<key>`
under the staging root, where `<outer>` and `<inner>` are the key's
bucket segments — one key-named leaf directory per key containing one
same-named file. -/
theorem c6_staged_path_shape (env : Env) (target : String) (key : String)
    (p : List String) (h : (key, p) ∈ (runExport env target).2.links) :
    p = [bucketOuter key, bucketInner key, key, key] :=
  (linkLoop_links_staged env.linkRaises env.keys key p
    (runExport_links_sub env target key p h)).trans rfl

/-- A fully successful single-key run, used to witness C6. -/
def envC6 : Env :=
  { archiveIsDir := false, archiveParentExists := true, annexObjsIsDir := true,
    exportdirExists := false, keys := ["K6"], linkRaises := fun _ => none,
    subprocessRaises := none, subprocessExit := 0, opts := [] }

/-- Witness for C6: in a concrete successful run over the single key
`"K6"`, the recorded hardlink sits at the four-component bucket path. -/
theorem c6_staged_path_shape_witness :
    ("K6", stagedRel "K6") ∈ (runExport envC6 "t").2.links
    ∧ stagedRel "K6" = [bucketOuter "K6", bucketInner "K6", "K6", "K6"] :=
  ⟨by decide, c6_staged_path_shape envC6 "t" "K6" (stagedRel "K6") (by decide)⟩

/-- A run whose first key's hardlink creation raises, used for C2. -/
def envC2 : Env :=
  { archiveIsDir := true, archiveParentExists := true, annexObjsIsDir := true,
    exportdirExists := false, keys := ["k1", "k2"],
    linkRaises := fun k => if k = "k1" then some "OSError" else none,
    subprocessRaises := none, subprocessExit := 0, opts := [] }

/-- C2 counterexample: in a concrete run whose first hardlink fails, the
remaining enumeration is indeed aborted and the archiver is never
invoked, but `rmtree` is never called — the staging loop sits outside
the try/finally (lines 156-168 vs 175-194) — so the staging tree (whose
first `keydir` was already created) still exists when the run ends,
refuting the claim that it is removed. -/
theorem c2_counterexample :
    (runExport envC2 "t").1 = .raised "OSError" []
    ∧ (runExport envC2 "t").2.links = []
    ∧ (runExport envC2 "t").2.archiverArgv = none
    ∧ (runExport envC2 "t").2.rmtreeCalled = false
    ∧ stagingExistsAtEnd envC2 (runExport envC2 "t").2 = true := by decide

/-- C2, amended: if hardlink creation fails for some key during the
staging loop, the run aborts the remaining enumeration immediately (no
further keys are linked, the archiver is never invoked) and the
exception propagates out of the run; the staging tree is NOT removed —
it still exists when the run ends, because the cleanup `finally` only
guards the archiver step. -/
theorem c2_link_failure_aborts_but_leaks_staging (env : Env) (t : String)
    (pre post : List String) (k e : String)
    (hobj : env.annexObjsIsDir = true) (hexp : env.exportdirExists = false)
    (hkeys : env.keys = pre ++ k :: post)
    (hpre : ∀ j ∈ pre, env.linkRaises j = none)
    (hk : env.linkRaises k = some e) :
    (runExport env t).1 = .raised e []
    ∧ (runExport env t).2.links = pre.map (fun j => (j, stagedRel j))
    ∧ (runExport env t).2.archiverArgv = none
    ∧ (runExport env t).2.rmtreeCalled = false
    ∧ stagingExistsAtEnd env (runExport env t).2 = true := by
  have hl := linkLoop_first_failure env.linkRaises pre post k e hpre hk
  rw [← hkeys] at hl
  simp only [runExport, hobj, hexp, hl, Bool.not_true, Bool.false_eq_true, if_false,
    if_true, stagingExistsAtEnd]
  simp

/-- Witness for C2 (amended) at the concrete environment `envC2`. -/
theorem c2_link_failure_witness :
    (runExport envC2 "t").1 = .raised "OSError" []
    ∧ (runExport envC2 "t").2.links = ([] : List String).map (fun j => (j, stagedRel j))
    ∧ (runExport envC2 "t").2.archiverArgv = none
    ∧ (runExport envC2 "t").2.rmtreeCalled = false
    ∧ stagingExistsAtEnd envC2 (runExport envC2 "t").2 = true :=
  c2_link_failure_aborts_but_leaks_staging envC2 "t" [] ["k2"] "k1" "OSError"
    rfl rfl rfl (by simp) (by decide)

/-- A run whose archiver subprocess completes with exit status 2, used
for C3. -/
def envC3 : Env :=
  { archiveIsDir := false, archiveParentExists := true, annexObjsIsDir := true,
    exportdirExists := false, keys := ["k3"], linkRaises := fun _ => none,
    subprocessRaises := none, subprocessExit := 2, opts := [] }

/-- C3, evaluated at the failing input: the archiver subprocess exits
with nonzero status 2, yet the run's terminal outcome is the success
result — `subprocess.run` is called without `check=True` and its
`returncode` is never inspected (lines 175-184), even though the
`except` handler's own message ("7z failed") shows the code intends to
report archiver failures as errors. -/
theorem c3_nonzero_exit_reported_ok :
    envC3.subprocessExit = 2
    ∧ (runExport envC3 "t").1 = .returned [⟨.ok, none, some "t"⟩]
    ∧ resultStatuses (runExport envC3 "t").1 = [.ok] := by decide

/-- C9: when both abnormal start conditions hold at once — the
object-store root is missing and the staging directory already exists —
the run reports the non-error no-op outcome, not the staging-conflict
error: the missing-store check (line 121) is evaluated strictly before
the staging-conflict check (line 131). -/
theorem c9_missing_store_checked_first (env : Env) (t : String)
    (hobj : env.annexObjsIsDir = false) (hexp : env.exportdirExists = true) :
    (runExport env t).1 = .returned [⟨.notneeded, some "no annex keys present", none⟩]
    ∧ resultStatuses (runExport env t).1 = [.notneeded] := by
  refine ⟨?_, ?_⟩ <;> simp [runExport, resultStatuses, hobj]

/-- A run with a missing object store and a pre-existing staging
directory at once, used to witness C9. -/
def envC9 : Env :=
  { archiveIsDir := true, archiveParentExists := true, annexObjsIsDir := false,
    exportdirExists := true, keys := [], linkRaises := fun _ => none,
    subprocessRaises := none, subprocessExit := 0, opts := [] }

/-- Witness for C9 at the concrete environment `envC9`. -/
theorem c9_missing_store_checked_first_witness :
    (runExport envC9 "t").1 = .returned [⟨.notneeded, some "no annex keys present", none⟩]
    ∧ resultStatuses (runExport envC9 "t").1 = [.notneeded] :=
  c9_missing_store_checked_first envC9 "t" rfl rfl

/-- An existing object store holding zero regular files, used for C4:
the run falls through to the archiver step, whose invocation fails
because the never-created staging directory cannot be the working
directory. -/
def envC4 : Env :=
  { archiveIsDir := true, archiveParentExists := true, annexObjsIsDir := true,
    exportdirExists := false, keys := [], linkRaises := fun _ => none,
    subprocessRaises := some "cwd does not exist", subprocessExit := 0, opts := [] }

/-- C4 counterexample: with an existing object-store directory that
contains zero regular files, the run does NOT terminate with the no-op
outcome — only `annex_objs.is_dir()` is checked (line 121), so the run
proceeds to the archiver step and ends in an error. -/
theorem c4_counterexample :
    envC4.annexObjsIsDir = true ∧ envC4.keys = []
    ∧ resultStatuses (runExport envC4 "t").1 = [.error] := by decide

/-- C4, amended: the no-op outcome is produced exactly when the
object-store root is not a directory; in that case the run performs no
staging writes and no archiver invocation, though the archive's parent
directories may still be created (the `mkdir` at line 110 precedes the
check).  An existing root with zero regular files instead proceeds all
the way to the archiver invocation. -/
theorem c4_noop_only_when_store_missing (env : Env) (t : String) :
    (env.annexObjsIsDir = false →
      (runExport env t).1 = .returned [⟨.notneeded, some "no annex keys present", none⟩]
      ∧ (runExport env t).2.mkdirs = []
      ∧ (runExport env t).2.links = []
      ∧ (runExport env t).2.archiverArgv = none
      ∧ (runExport env t).2.rmtreeCalled = false
      ∧ ((runExport env t).2.createdArchiveParent = true
          ↔ env.archiveIsDir = false ∧ env.archiveParentExists = false))
    ∧ (env.annexObjsIsDir = true → env.exportdirExists = false → env.keys = [] →
        ((runExport env t).2.archiverArgv).isSome = true) := by
  constructor
  · intro hobj
    simp [runExport, hobj]
  · intro hobj hexp hkeys
    cases hs : env.subprocessRaises <;>
      simp [runExport, linkLoop, hobj, hexp, hkeys, hs]

/-- A missing object store with a missing archive parent, used to
witness C4 (amended). -/
def envC4b : Env :=
  { archiveIsDir := false, archiveParentExists := false, annexObjsIsDir := false,
    exportdirExists := false, keys := [], linkRaises := fun _ => none,
    subprocessRaises := none, subprocessExit := 0, opts := [] }

/-- Witness for C4 (amended) at the concrete environments `envC4b`
(missing store: no-op result) and `envC4` (empty store: archiver
reached). -/
theorem c4_noop_only_when_store_missing_witness :
    (runExport envC4b "t").1 = .returned [⟨.notneeded, some "no annex keys present", none⟩]
    ∧ ((runExport envC4 "t").2.archiverArgv).isSome = true :=
  ⟨((c4_noop_only_when_store_missing envC4b "t").1 rfl).1,
   (c4_noop_only_when_store_missing envC4 "t").2 rfl rfl rfl⟩

/-- A pre-existing staging directory together with a missing archive
parent directory, used for C5. -/
def envC5 : Env :=
  { archiveIsDir := false, archiveParentExists := false, annexObjsIsDir := true,
    exportdirExists := true, keys := [], linkRaises := fun _ => none,
    subprocessRaises := none, subprocessExit := 0, opts := [] }

/-- C5 counterexample: with a pre-existing staging directory the run
does yield an error, but it is not true that nothing is created on the
filesystem: `archive.parent.mkdir(exist_ok=True, parents=True)` at line
110 runs before the staging check at line 131 and here creates the
missing parent directories of the target. -/
theorem c5_counterexample :
    (runExport envC5 "t").2.createdArchiveParent = true
    ∧ resultStatuses (runExport envC5 "t").1 = [.error] := by decide

/-- C5, amended: with a pre-existing staging directory the run
terminates with an error outcome before any staging or archiving work —
no staging directories, no hardlinks, no archiver invocation, no
cleanup, and the object store and the archive file are untouched — but
the archive's parent directories may be created, since that `mkdir`
precedes the check. -/
theorem c5_staging_conflict_aborts_early (env : Env) (t : String)
    (hobj : env.annexObjsIsDir = true) (hexp : env.exportdirExists = true) :
    (runExport env t).1 = .returned
      [⟨.error, some "export directory already exists, please remove first", none⟩]
    ∧ (runExport env t).2.mkdirs = []
    ∧ (runExport env t).2.links = []
    ∧ (runExport env t).2.archiverArgv = none
    ∧ (runExport env t).2.rmtreeCalled = false
    ∧ ((runExport env t).2.createdArchiveParent = true
        ↔ env.archiveIsDir = false ∧ env.archiveParentExists = false) := by
  simp [runExport, hobj, hexp]

/-- Witness for C5 (amended) at the concrete environment `envC5`. -/
theorem c5_staging_conflict_aborts_early_witness :
    (runExport envC5 "t").1 = .returned
      [⟨.error, some "export directory already exists, please remove first", none⟩]
    ∧ (runExport envC5 "t").2.mkdirs = []
    ∧ (runExport envC5 "t").2.links = []
    ∧ (runExport envC5 "t").2.archiverArgv = none
    ∧ (runExport envC5 "t").2.rmtreeCalled = false
    ∧ ((runExport envC5 "t").2.createdArchiveParent = true
        ↔ envC5.archiveIsDir = false ∧ envC5.archiveParentExists = false) :=
  c5_staging_conflict_aborts_early envC5 "t" rfl rfl

/-- Whether a run result is an uncaught propagating exception. -/
def isRaised : RunResult → Bool
  | .raised _ _ => true
  | .returned _ => false

/-- A run whose only key's hardlink creation raises, used for C7. -/
def envC7 : Env :=
  { archiveIsDir := true, archiveParentExists := true, annexObjsIsDir := true,
    exportdirExists := false, keys := ["q"],
    linkRaises := fun _ => some "PermissionError",
    subprocessRaises := none, subprocessExit := 0, opts := [] }

/-- C7 counterexample: a hardlink failure is NOT surfaced to the caller
as a structured status-and-message outcome — the exception propagates
out of the top-level operation uncaught, because the staging loop (lines
156-168) is outside the try/except of lines 175-194. -/
theorem c7_counterexample :
    (runExport envC7 "t").1 = .raised "PermissionError" []
    ∧ isRaised (runExport envC7 "t").1 = true := by decide

/-- C7, amended: precondition conflicts and archiver failures are
surfaced to the immediate caller as structured status-and-message
outcomes, and those are the only structured failure outcomes; linking
failures, however, propagate out of the top-level operation as
uncontrolled faults, and they are the only uncontrolled faults. -/
theorem c7_only_link_failures_escape (env : Env) (t : String) :
    (isRaised (runExport env t).1 = true ↔
      (env.annexObjsIsDir = true ∧ env.exportdirExists = false
        ∧ (linkLoop env.linkRaises env.keys).exc ≠ none))
    ∧ (env.annexObjsIsDir = true → env.exportdirExists = true →
        (runExport env t).1 = .returned
          [⟨.error, some "export directory already exists, please remove first", none⟩])
    ∧ (∀ d, env.annexObjsIsDir = true → env.exportdirExists = false →
        (linkLoop env.linkRaises env.keys).exc = none → env.subprocessRaises = some d →
        (runExport env t).1 = .returned
          [⟨.error, some ("7z failed: " ++ d), some (archiveOf env t)⟩]) := by
  refine ⟨?_, ?_, ?_⟩
  · cases h1 : env.annexObjsIsDir <;> cases h2 : env.exportdirExists <;>
      cases h3 : (linkLoop env.linkRaises env.keys).exc <;>
      cases h4 : env.subprocessRaises <;>
      simp [runExport, isRaised, h1, h2, h3, h4]
  · intro h1 h2
    simp [runExport, h1, h2]
  · intro d h1 h2 h3 h4
    simp [runExport, h1, h2, h3, h4]

/-- A run whose archiver invocation itself raises (tool missing), used
to witness C7 (amended). -/
def envC7b : Env :=
  { archiveIsDir := true, archiveParentExists := true, annexObjsIsDir := true,
    exportdirExists := false, keys := [], linkRaises := fun _ => none,
    subprocessRaises := some "No such file or directory", subprocessExit := 0,
    opts := [] }

/-- Witness for C7 (amended) at the concrete environment `envC7b`: the
archiver invocation failure is surfaced as a structured error outcome
carrying the underlying detail. -/
theorem c7_only_link_failures_escape_witness :
    (runExport envC7b "t").1 = .returned
      [⟨.error, some ("7z failed: " ++ "No such file or directory"),
        some (archiveOf envC7b "t")⟩] :=
  (c7_only_link_failures_escape envC7b "t").2.2 "No such file or directory"
    rfl rfl rfl rfl

/-- C8: for every run that invokes the archiver, if the caller supplied
a non-empty options list, those options are appended verbatim to the
fixed `['7z', 'u', <archive>, '.']` invocation form; if the caller
supplied no options, exactly the one default no-compression option
`-mx0` is appended instead. -/
theorem c8_opts_appended_or_default (env : Env) (t : String)
    (hobj : env.annexObjsIsDir = true) (hexp : env.exportdirExists = false)
    (hloop : (linkLoop env.linkRaises env.keys).exc = none) :
    (env.opts ≠ [] →
      (runExport env t).2.archiverArgv =
        some (["7z", "u", archiveOf env t, "."] ++ env.opts))
    ∧ (env.opts = [] →
      (runExport env t).2.archiverArgv =
        some (["7z", "u", archiveOf env t, "."] ++ ["-mx0"])) := by
  cases hs : env.subprocessRaises <;>
    exact ⟨fun ho => by simp [runExport, argvOf, hobj, hexp, hloop, hs, ho],
           fun ho => by simp [runExport, argvOf, hobj, hexp, hloop, hs, ho]⟩

/-- A run with caller-supplied archiver options, used to witness C8. -/
def envC8a : Env :=
  { archiveIsDir := false, archiveParentExists := true, annexObjsIsDir := true,
    exportdirExists := false, keys := [], linkRaises := fun _ => none,
    subprocessRaises := none, subprocessExit := 0, opts := ["-mx9", "-bb3"] }

/-- A run with no caller-supplied archiver options, used to witness C8. -/
def envC8b : Env :=
  { archiveIsDir := false, archiveParentExists := true, annexObjsIsDir := true,
    exportdirExists := false, keys := [], linkRaises := fun _ => none,
    subprocessRaises := none, subprocessExit := 0, opts := [] }

/-- Witness for C8 at the concrete environments `envC8a` (options passed
through verbatim) and `envC8b` (default `-mx0`). -/
theorem c8_opts_appended_or_default_witness :
    (runExport envC8a "t").2.archiverArgv =
      some (["7z", "u", archiveOf envC8a "t", "."] ++ envC8a.opts)
    ∧ (runExport envC8b "t").2.archiverArgv =
      some (["7z", "u", archiveOf envC8b "t", "."] ++ ["-mx0"]) :=
  ⟨(c8_opts_appended_or_default envC8a "t" rfl rfl rfl).1 (by decide),
   (c8_opts_appended_or_default envC8b "t" rfl rfl rfl).2 rfl⟩

end RiaExport
